import Mathlib

/-!
Verification of the FPT admissions RAG chatbot backend.

Shallow embedding of the Python package `backend/app`: the prompt builder
(`core/prompt_builder.py`), the RAG orchestrator (`core/rag_engine.py`), the
chat service (`services/chat_service.py`), the HTTP chat endpoint
(`api/chat.py`), the request schema (`schemas/chat.py`), and the two retriever
implementations (`retriever/chroma_retriever.py`, `retriever/faiss_retriever.py`).

Modelling conventions: external effects (the embedding model, the vector-store
query, the LLM call) are passed in as function parameters; Python floats are
modelled as rationals; Python string dicts as association lists; a raised
exception as the `error` case of `Except`.
-/

namespace FptChatbot

/-- Document metadata: the Python metadata dict, modelled as a string
association list. -/
abbrev Metadata := List (String × String)

/-- Python `metadata.get(key, default)` on a metadata dict. -/
def metaGetD (m : Metadata) (key default? : String) : String :=
  match m.lookup key with
  | some v => v
  | none => default?

/-- A retrieval result, the dict
`{"content": str, "metadata": dict, "score": float}` produced by both
retrievers. -/
structure RetrievedDoc where
  content : String
  metadata : Metadata
  score : ℚ
deriving DecidableEq

/-- The pattern `pat` occurs contiguously inside `s` (Python `pat in s`),
stated on the character lists underlying the strings. -/
def OccursIn (pat s : String) : Prop :=
  ∃ l r : List Char, s.data = l ++ pat.data ++ r

/-- The string `s` ends with `pat` (Python `s.endswith(pat)`). -/
def EndsWith (pat s : String) : Prop :=
  ∃ l : List Char, s.data = l ++ pat.data

/-- Python `not s or not s.strip()` from `chroma_retriever.py` line 96: true
exactly when every character of `s` is whitespace (`strip` removes leading and
trailing whitespace, so the stripped string is empty iff nothing else occurs). -/
def isBlank (s : String) : Bool :=
  s.data.all fun c => c.isWhitespace

/-! The prompt builder, `core/prompt_builder.py`. -/

/-- The constant `PromptBuilder.SYSTEM_PROMPT` (`prompt_builder.py` lines
19 to 29), verbatim including its leading and trailing newline. -/
def SYSTEM_PROMPT : String :=
  "\nBạn là trợ lý tư vấn tuyển sinh của Đại học FPT (FPT University AI).\n\nYÊU CẦU QUAN TRỌNG:\n- Chỉ trả lời dựa trên thông tin được cung cấp trong CONTEXT bên dưới\n- Nếu không tìm thấy thông tin trong CONTEXT, hãy trả lời: \"Xin lỗi, tôi không có thông tin về vấn đề này. Vui lòng liên hệ phòng tuyển sinh để được hỗ trợ tốt hơn.\"\n- TUYỆT ĐỐI KHÔNG bịa đặt thông tin không có trong văn bản\n- Trả lời rõ ràng, chi tiết bằng tiếng Việt\n- Giọng điệu thân thiện, chuyên nghiệp, khuyến khích học sinh\n- Nếu có thông tin về địa chỉ, học phí, điều kiện, hãy liệt kê đầy đủ và rõ ràng\n"

/-- The fixed Vietnamese no-information apology that ends the fallback prompt
(`prompt_builder.py` line 96). -/
def APOLOGY_NO_INFO : String :=
  "Xin lỗi, tôi không có thông tin về vấn đề này. Vui lòng liên hệ phòng tuyển sinh để được hỗ trợ tốt hơn."

/-- The header line that introduces the context block in a prompt built with
documents (`prompt_builder.py` line 71). -/
def CONTEXT_HEADER : String := "DỮ LIỆU ĐẦU VÀO (CONTEXT):"

/-- Python `f"{score:.2f}"` over rationals: two decimal places, rounding half
up. The exact rounding mode is irrelevant to every property proved below. -/
def formatFixed2 (x : ℚ) : String :=
  let n : ℤ := round (x * 100)
  let sign := if n < 0 then "-" else ""
  let m := n.natAbs
  sign ++ toString (m / 100) ++ "." ++ (if m % 100 < 10 then "0" else "") ++ toString (m % 100)

/-- One entry of `context_parts` (`prompt_builder.py` lines 51 to 64): source
number, title and url from the metadata with their defaults, the formatted
score, and the document content. -/
def contextPart (i : ℕ) (doc : RetrievedDoc) : String :=
  "--- Nguồn " ++ toString i ++ " (" ++ metaGetD doc.metadata "title" "Nguồn không tên"
    ++ " - " ++ metaGetD doc.metadata "url" "#" ++ ") [Độ liên quan: "
    ++ formatFixed2 doc.score ++ "] ---\n" ++ doc.content

/-- `PromptBuilder.build_without_context` (`prompt_builder.py` lines 82 to 96). -/
def buildWithoutContext (query : String) : String :=
  SYSTEM_PROMPT ++ "\n\nCÂU HỎI: " ++ query ++ "\n\nTRẢ LỜI: " ++ APOLOGY_NO_INFO

/-- `PromptBuilder.build` (`prompt_builder.py` lines 31 to 80): with no
documents it falls back to `build_without_context`; otherwise it joins the
numbered context parts (Python `enumerate(documents, 1)`) with blank lines and
interpolates them into the prompt template. -/
def build (query : String) (documents : List RetrievedDoc) : String :=
  match documents with
  | [] => buildWithoutContext query
  | d :: ds =>
    let context := String.intercalate "\n\n"
      (((d :: ds).enum).map fun p => contextPart (p.1 + 1) p.2)
    SYSTEM_PROMPT ++ "\n\n" ++ CONTEXT_HEADER ++ "\n" ++ context
      ++ "\n\nCÂU HỎI NGƯỜI DÙNG:\n" ++ query ++ "\n\nTRẢ LỜI:"

/-! The RAG orchestrator, `core/rag_engine.py`. -/

/-- The result dict of `RAGEngine.generate` (`rag_engine.py` lines 78 to 82). -/
structure RAGResult where
  answer : String
  sources : List Metadata
  num_sources : ℕ
deriving DecidableEq

/-- `RAGEngine.generate` (`rag_engine.py` lines 56 to 82): retrieve documents,
build the prompt, call the LLM. The retriever's `search` method and the LLM's
`generate` method are the two function parameters. -/
def ragGenerate (search : String → List RetrievedDoc) (llmGenerate : String → String)
    (query : String) : RAGResult :=
  let documents := search query
  let prompt := build query documents
  let answer := llmGenerate prompt
  { answer := answer
    sources := documents.map fun d => d.metadata
    num_sources := documents.length }

/-! The chat service and HTTP endpoint, `services/chat_service.py` and
`api/chat.py`. -/

/-- A value of the response metadata dict (string or integer valued). -/
inductive MetaVal where
  | str (s : String)
  | nat (n : ℕ)
deriving DecidableEq

/-- The `ChatResponse` schema (`schemas/chat.py` lines 38 to 54). -/
structure ChatResponse where
  answer : String
  sources : List Metadata
  metadata : List (String × MetaVal)
deriving DecidableEq

/-- The fixed Vietnamese error apology returned by
`ChatService.process_message` when the pipeline raises
(`chat_service.py` line 58). -/
def APOLOGY_ERROR : String := "Xin lỗi, đã có lỗi xảy ra. Vui lòng thử lại sau."

/-- `ChatService.process_message` (`chat_service.py` lines 31 to 63). The RAG
pipeline outcome is the parameter: `Except.ok r` models
`self.rag_engine.generate(message)` returning `r`, and `Except.error e` models
it raising an exception whose message is `e`. The `except` clause catches every
exception and returns the apology response, so the function is total. -/
def processMessage (pipeline : Except String RAGResult) : ChatResponse :=
  match pipeline with
  | .ok result =>
    { answer := result.answer
      sources := result.sources
      metadata := [("model", .str "gemini"), ("num_sources", .nat result.num_sources)] }
  | .error e =>
    { answer := APOLOGY_ERROR
      sources := []
      metadata := [("error", .str e)] }

/-- `ChatService.process_message` viewed as a fallible computation, exactly as
the chat endpoint calls it: its body catches every exception, so it always
returns normally and never propagates an error. -/
def processMessageExc (pipeline : Except String RAGResult) : Except String ChatResponse :=
  Except.ok (processMessage pipeline)

/-- The HTTP outcome of the chat endpoint handler: a 200 response body, or an
HTTP 500 error with a detail string. -/
inductive HttpOutcome where
  | ok (body : ChatResponse)
  | serverError (detail : String)
deriving DecidableEq

/-- HTTP status code of an endpoint outcome. -/
def statusOf : HttpOutcome → ℕ
  | .ok _ => 200
  | .serverError _ => 500

/-- The `chat` endpoint handler (`api/chat.py` lines 15 to 32): run
`process_message` inside `try`; on an exception raise
`HTTPException(status_code=500, detail=str(e))`. -/
def chatEndpoint (pipeline : Except String RAGResult) : HttpOutcome :=
  match processMessageExc pipeline with
  | .ok response => .ok response
  | .error e => .serverError e

/-! The request schema, `schemas/chat.py`. -/

/-- `ChatRequest.message` validation (`schemas/chat.py` lines 9 to 14):
`min_length=1, max_length=1000`, counted in characters. -/
def validMessage (message : String) : Bool :=
  decide (1 ≤ message.length) && decide (message.length ≤ 1000)

/-- Outcome of a chat request including schema validation: FastAPI rejects the
request before the handler body (and hence the pipeline) runs when validation
fails. -/
inductive RequestOutcome where
  | validationError
  | handled (o : HttpOutcome)
deriving DecidableEq

/-- The chat route with its request validation: the handler, and so the RAG
pipeline, runs only on a message accepted by `ChatRequest`. -/
def handleChatRequest (pipeline : Except String RAGResult) (message : String) :
    RequestOutcome :=
  if validMessage message then .handled (chatEndpoint pipeline) else .validationError

/-! The Chroma retriever, `retriever/chroma_retriever.py`. -/

/-- One row of the Chroma collection query result: document text, optional
metadata dict, and reported distance (`chroma_retriever.py` lines 117 to 121). -/
structure ChromaRow where
  content : String
  metadata : Option Metadata
  distance : ℚ
deriving DecidableEq

/-- `settings.TOP_K` (`config.py` line 32). -/
def TOP_K : ℕ := 5

/-- Python `top_k = top_k or settings.TOP_K` (`chroma_retriever.py` line 100):
`or` replaces both `None` and the falsy `0` by the default. -/
def resolveTopK (top_k : Option ℕ) : ℕ :=
  match top_k with
  | none => TOP_K
  | some n => if n = 0 then TOP_K else n

/-- The cosine-distance normalization of `ChromaRetriever.search`
(`chroma_retriever.py` line 126): `score = 1.0 - (distance / 2.0)`. -/
def normalizeScore (distance : ℚ) : ℚ := 1 - distance / 2

/-- `ChromaRetriever.search` (`chroma_retriever.py` lines 78 to 141). The
embedder and the collection are the function parameters: `embed q` is
`self.embedder.embed_text(q)` and `store emb k` is the rows of
`self.collection.query(query_embeddings=[emb], n_results=k)`. Every row is
kept, with the normalized score and the metadata defaulted to the empty dict. -/
def chromaSearch (embed : String → List ℚ) (store : List ℚ → ℕ → List ChromaRow)
    (query : String) (top_k : Option ℕ) : List RetrievedDoc :=
  if isBlank query then []
  else
    let k := resolveTopK top_k
    let rows := store (embed query) k
    rows.map fun row =>
      { content := row.content
        metadata := row.metadata.getD []
        score := normalizeScore row.distance }

/-- The calls `ChromaRetriever.search` makes, alongside its result: the
embedder invocations and the collection queries, in order. The result
component mirrors `chromaSearch` line for line. -/
structure ChromaTrace where
  result : List RetrievedDoc
  embedCalls : List String
  storeCalls : List (List ℚ × ℕ)
deriving DecidableEq

/-- `ChromaRetriever.search` instrumented with the external calls it performs:
a blank query returns on line 98 before the embedding on line 105 and the
collection query on line 108 are reached. -/
def chromaSearchTraced (embed : String → List ℚ) (store : List ℚ → ℕ → List ChromaRow)
    (query : String) (top_k : Option ℕ) : ChromaTrace :=
  if isBlank query then { result := [], embedCalls := [], storeCalls := [] }
  else
    let k := resolveTopK top_k
    let emb := embed query
    let rows := store emb k
    { result := rows.map fun row =>
        { content := row.content
          metadata := row.metadata.getD []
          score := normalizeScore row.distance }
      embedCalls := [query]
      storeCalls := [(emb, k)] }

/-! The FAISS retriever, `retriever/faiss_retriever.py`. -/

/-- One entry of the pickled document list: a dict whose `content` and
`metadata` keys may be absent (`faiss_retriever.py` lines 91 to 92 read them
with `.get` and defaults). -/
structure FaissDocEntry where
  content : Option String
  metadata : Option Metadata
deriving DecidableEq

/-- The state of a `FAISSRetriever` after `_load_index`: the `_index` and
`_documents` attributes, each present or `None`. -/
structure FaissState where
  index : Option Unit
  documents : Option (List FaissDocEntry)

/-- The rank-based score of `FAISSRetriever.search`
(`faiss_retriever.py` line 93): `1.0 - (i * 0.1)`, from the rank alone. -/
def faissScore (i : ℕ) : ℚ := 1 - (i : ℚ) / 10

/-- `FAISSRetriever.search` (`faiss_retriever.py` lines 59 to 100): with no
loaded index or document list it returns the empty list; otherwise it returns
the first `min(top_k, len(documents))` entries with rank-based scores. The
body is an explicit placeholder (the source carries a TODO and labels the
scores fake), so the `query` and `score_threshold` parameters are never used. -/
def faissSearch (st : FaissState) (query : String) (top_k : ℕ)
    (score_threshold : ℚ) : List RetrievedDoc :=
  if st.index = none ∨ st.documents = none then []
  else
    let docs := st.documents.getD []
    ((docs.take top_k).enum).map fun p =>
      { content := p.2.content.getD ""
        metadata := p.2.metadata.getD []
        score := faissScore p.1 }

/-! Theorems. -/

/-- Claim C1: for every query, `RAGEngine.generate` runs retrieve, then prompt,
then generate: it calls the retriever's search on the query, feeds the query
and the retrieved documents to the prompt builder, feeds that prompt to the
LLM, and returns the LLM output as the answer, the metadata of the retrieved
documents in retrieval order as the sources, and their number as
`num_sources`. -/
theorem rag_generate_pipeline (search : String → List RetrievedDoc)
    (llmGenerate : String → String) (query : String) :
    ragGenerate search llmGenerate query
      = { answer := llmGenerate (build query (search query))
          sources := (search query).map fun d => d.metadata
          num_sources := (search query).length } := rfl

/-- Claim C2, counterexample: with the pipeline raising an exception, the chat
endpoint does not return HTTP 500 — the service layer swallows the failure. -/
theorem chat_endpoint_failure_not_500 :
    ¬ statusOf (chatEndpoint (Except.error "retriever failed")) = 500 := by
  decide

/-- Claim C2, amended: a pipeline exception never surfaces as HTTP 500;
`ChatService.process_message` catches it and returns the fixed apology body
with the error recorded in metadata, so the endpoint answers HTTP 200. The
endpoint's own 500 branch is unreachable from pipeline failures because
`process_message` always returns normally. -/
theorem chat_endpoint_pipeline_failure_is_200 (e : String)
    (pipeline : Except String RAGResult) :
    chatEndpoint (Except.error e)
        = .ok { answer := APOLOGY_ERROR
                sources := []
                metadata := [("error", .str e)] }
      ∧ statusOf (chatEndpoint pipeline) = 200 :=
  ⟨rfl, rfl⟩

/-- Claim C8: when the RAG pipeline raises, `ChatService.process_message`
returns (rather than propagates) a `ChatResponse` whose answer is the fixed
Vietnamese apology, whose sources list is empty and whose metadata records the
error message; being a total function of the pipeline outcome, it never
raises. -/
theorem process_message_catches_pipeline_errors (e : String) :
    processMessage (Except.error e)
      = { answer := APOLOGY_ERROR
          sources := []
          metadata := [("error", .str e)] }
    ∧ processMessageExc (Except.error e)
      = Except.ok (processMessage (Except.error e)) :=
  ⟨rfl, rfl⟩

/-- Claim C10: the chat route accepts exactly the messages of 1 to 1000
characters: `ChatRequest` validation succeeds iff the length is in range, a
request with an empty or over-long message is rejected with a validation error
— independently of the pipeline, which therefore never runs on it — and on a
valid message the handler (and pipeline) runs. -/
theorem chat_request_validation (pipeline : Except String RAGResult)
    (message : String) :
    (validMessage message = true ↔ 1 ≤ message.length ∧ message.length ≤ 1000)
    ∧ (handleChatRequest pipeline message = .validationError
        ↔ (message.length = 0 ∨ 1000 < message.length))
    ∧ (handleChatRequest pipeline message = .handled (chatEndpoint pipeline)
        ↔ 1 ≤ message.length ∧ message.length ≤ 1000) := by
  have hval : validMessage message = true
      ↔ 1 ≤ message.length ∧ message.length ≤ 1000 := by
    simp [validMessage]
  refine ⟨hval, ?_, ?_⟩
  · by_cases hb : validMessage message = true
    · have hl := hval.mp hb
      unfold handleChatRequest
      rw [if_pos hb]
      simp
      omega
    · have hl := hval.not.mp hb
      unfold handleChatRequest
      rw [if_neg hb]
      simp
      omega
  · by_cases hb : validMessage message = true
    · have hl := hval.mp hb
      unfold handleChatRequest
      rw [if_pos hb]
      simp [hl]
    · have hl := hval.not.mp hb
      unfold handleChatRequest
      rw [if_neg hb]
      simp
      omega

/-- Claim C3: for a non-blank query, `ChromaRetriever.search` keeps every row
the store reports — no threshold filtering — and scores each one as
`1 - distance/2`; that normalization maps every distance in `[0, 2]` into
`[0, 1]` and is strictly decreasing in the distance. -/
theorem chroma_search_normalization (embed : String → List ℚ)
    (store : List ℚ → ℕ → List ChromaRow) (query : String) (top_k : Option ℕ)
    (h : isBlank query = false) :
    chromaSearch embed store query top_k
        = (store (embed query) (resolveTopK top_k)).map (fun row =>
            { content := row.content
              metadata := row.metadata.getD []
              score := normalizeScore row.distance })
    ∧ (chromaSearch embed store query top_k).length
        = (store (embed query) (resolveTopK top_k)).length
    ∧ (∀ d : ℚ, 0 ≤ d → d ≤ 2 → 0 ≤ normalizeScore d ∧ normalizeScore d ≤ 1)
    ∧ (∀ d₁ d₂ : ℚ, d₁ < d₂ → normalizeScore d₂ < normalizeScore d₁) := by
  refine ⟨?_, ?_, ?_, ?_⟩
  · unfold chromaSearch
    rw [if_neg (by simp [h])]
  · unfold chromaSearch
    rw [if_neg (by simp [h])]
    exact List.length_map _ _
  · intro d h0 h2
    unfold normalizeScore
    constructor <;> linarith
  · intro d₁ d₂ hlt
    unfold normalizeScore
    linarith

/-- Claim C3, witness: a concrete non-blank query against a store reporting a
single row at distance 1 yields exactly that row with score 1/2. -/
theorem chroma_search_normalization_witness :
    isBlank "hoc phi nganh cntt" = false
    ∧ chromaSearch (fun _ => [1]) (fun _ _ => [⟨"tai lieu", some [("title", "a")], 1⟩])
        "hoc phi nganh cntt" none
      = [{ content := "tai lieu", metadata := [("title", "a")], score := 1/2 }] := by
  refine ⟨by decide, ?_⟩
  have h := chroma_search_normalization (fun _ => [1])
    (fun _ _ => [⟨"tai lieu", some [("title", "a")], 1⟩]) "hoc phi nganh cntt" none
    (by decide)
  rw [h.1]
  norm_num [normalizeScore]

/-- Claim C9: on a query that is empty or all whitespace,
`ChromaRetriever.search` returns the empty list having invoked neither the
embedder nor the vector-store query. -/
theorem chroma_search_blank_query (embed : String → List ℚ)
    (store : List ℚ → ℕ → List ChromaRow) (query : String) (top_k : Option ℕ)
    (h : isBlank query = true) :
    chromaSearch embed store query top_k = []
    ∧ chromaSearchTraced embed store query top_k
        = { result := [], embedCalls := [], storeCalls := [] } := by
  unfold chromaSearch chromaSearchTraced
  rw [if_pos (by simp [h]), if_pos (by simp [h])]
  exact ⟨rfl, rfl⟩

/-- Claim C9, witness: the all-whitespace query of three spaces returns the
empty list with no embedder or store call, for an arbitrary concrete embedder
and store. -/
theorem chroma_search_blank_query_witness :
    isBlank "   " = true
    ∧ chromaSearch (fun _ => [1]) (fun _ _ => [⟨"x", none, 0⟩]) "   " none = [] :=
  ⟨by decide,
    (chroma_search_blank_query (fun _ => [1]) (fun _ _ => [⟨"x", none, 0⟩]) "   " none
      (by decide)).1⟩

/-- Claim C5: the code diverges from the claim. `FAISSRetriever.search` is an
explicit placeholder: its result does not depend on the query at all — for
every loaded state and every two queries the results coincide — and on a
concrete loaded index of two documents it returns both of them, with the fake
rank scores 1 and 9/10, for two different queries alike. -/
theorem faiss_search_ignores_query :
    (∀ (st : FaissState) (q₁ q₂ : String) (k : ℕ) (t : ℚ),
      faissSearch st q₁ k t = faissSearch st q₂ k t)
    ∧ faissSearch
        ⟨some (), some [⟨some "nganh cntt", some [("title", "a")]⟩,
          ⟨some "hoc phi", some [("title", "b")]⟩]⟩
        "hoc phi la bao nhieu" 5 (7/10)
      = faissSearch
        ⟨some (), some [⟨some "nganh cntt", some [("title", "a")]⟩,
          ⟨some "hoc phi", some [("title", "b")]⟩]⟩
        "dia chi o dau" 5 (7/10)
    ∧ (faissSearch
        ⟨some (), some [⟨some "nganh cntt", some [("title", "a")]⟩,
          ⟨some "hoc phi", some [("title", "b")]⟩]⟩
        "hoc phi la bao nhieu" 5 (7/10)).map (fun d => d.score)
      = [1, 9/10] := by
  refine ⟨fun st q₁ q₂ k t => rfl, rfl, ?_⟩
  simp [faissSearch, faissScore, List.enum, List.enumFrom]
  norm_num

/-- Claim C6: the two retrievers score incompatibly. Chroma normalizes the
reported distance with `1 - d/2`, FAISS fabricates `1 - i/10` from the rank
alone, and on the same single-document retrieval (the document at rank 0,
reported at distance 1) Chroma scores it 1/2 while FAISS scores it 1. -/
theorem incompatible_scoring_formulas :
    (∀ d : ℚ, normalizeScore d = 1 - d / 2)
    ∧ (∀ i : ℕ, faissScore i = 1 - (i : ℚ) / 10)
    ∧ (chromaSearch (fun _ => [1]) (fun _ _ => [⟨"tai lieu", none, 1⟩])
        "diem chuan" none).map (fun d => d.score) = [1/2]
    ∧ (faissSearch ⟨some (), some [⟨some "tai lieu", none⟩]⟩
        "diem chuan" 5 (7/10)).map (fun d => d.score) = [1]
    ∧ (1/2 : ℚ) ≠ 1 := by
  refine ⟨fun d => rfl, fun i => rfl, ?_,
    by simp [faissSearch, faissScore, List.enum, List.enumFrom], by norm_num⟩
  unfold chromaSearch
  rw [if_neg (by decide)]
  norm_num [normalizeScore, resolveTopK]

/-- Every string occurs in itself. -/
theorem occursIn_refl (s : String) : OccursIn s s :=
  ⟨[], [], by simp⟩

/-- An occurrence in the left part survives appending on the right. -/
theorem occursIn_of_append_left (pat a b : String) (h : OccursIn pat a) :
    OccursIn pat (a ++ b) := by
  obtain ⟨l, r, hlr⟩ := h
  exact ⟨l, r ++ b.data, by rw [String.data_append, hlr]; simp⟩

/-- An occurrence in the right part survives appending on the left. -/
theorem occursIn_of_append_right (pat a b : String) (h : OccursIn pat b) :
    OccursIn pat (a ++ b) := by
  obtain ⟨l, r, hlr⟩ := h
  exact ⟨a.data ++ l, r, by rw [String.data_append, hlr]; simp⟩

/-- A string ends with what was appended last. -/
theorem endsWith_append (a b : String) : EndsWith b (a ++ b) :=
  ⟨a.data, by rw [String.data_append]⟩

/-- Underlying character list of the fallback prompt. -/
theorem data_buildWithoutContext (query : String) :
    (buildWithoutContext query).data
      = SYSTEM_PROMPT.data ++ ("\n\nCÂU HỎI: " : String).data ++ query.data
        ++ ("\n\nTRẢ LỜI: " : String).data ++ APOLOGY_NO_INFO.data := by
  simp [buildWithoutContext, String.data_append]

set_option maxRecDepth 8000 in
/-- Claim C4: for every query, building a prompt with no documents returns
exactly the fallback prompt: it contains the system prompt and the query, it
ends with the fixed Vietnamese apology directing the user to the admissions
office, and it contains no context block — made precise as: whenever the query
itself does not contain the capital letter of the context header, the header
line introducing a context block does not occur in the prompt. -/
theorem build_empty_fallback (query : String) :
    build query [] = buildWithoutContext query
    ∧ buildWithoutContext query
        = SYSTEM_PROMPT ++ "\n\nCÂU HỎI: " ++ query ++ "\n\nTRẢ LỜI: " ++ APOLOGY_NO_INFO
    ∧ OccursIn SYSTEM_PROMPT (build query [])
    ∧ OccursIn query (build query [])
    ∧ EndsWith APOLOGY_NO_INFO (build query [])
    ∧ ('D' ∉ query.data → ¬ OccursIn CONTEXT_HEADER (build query [])) := by
  have hb : build query []
      = SYSTEM_PROMPT ++ "\n\nCÂU HỎI: " ++ query ++ "\n\nTRẢ LỜI: " ++ APOLOGY_NO_INFO :=
    rfl
  refine ⟨rfl, rfl, ?_, ?_, ?_, ?_⟩
  · rw [hb]
    exact occursIn_of_append_left _ _ _ (occursIn_of_append_left _ _ _
      (occursIn_of_append_left _ _ _ (occursIn_of_append_left _ _ _
        (occursIn_refl SYSTEM_PROMPT))))
  · rw [hb]
    exact occursIn_of_append_left _ _ _ (occursIn_of_append_left _ _ _
      (occursIn_of_append_right _ _ _ (occursIn_refl query)))
  · rw [hb]
    exact endsWith_append _ _
  · intro hD hocc
    obtain ⟨l, r, hlr⟩ := hocc
    have hmem : 'D' ∈ (build query []).data := by
      rw [hlr]
      have hmemCH : 'D' ∈ CONTEXT_HEADER.data := by decide
      simp [List.mem_append, hmemCH]
    rw [show build query [] = buildWithoutContext query from rfl,
      data_buildWithoutContext] at hmem
    simp only [List.mem_append] at hmem
    rcases hmem with ((((h | h) | h) | h) | h)
    · exact absurd h (by decide)
    · exact absurd h (by decide)
    · exact hD h
    · exact absurd h (by decide)
    · exact absurd h (by decide)

/-- Claim C4, witness: a concrete query free of the letter D instantiates the
no-context-block conjunct. -/
theorem build_empty_fallback_witness :
    'D' ∉ ("Hoc phi nganh cntt bao nhieu?" : String).data
    ∧ ¬ OccursIn CONTEXT_HEADER (build "Hoc phi nganh cntt bao nhieu?" []) :=
  ⟨by decide,
    (build_empty_fallback "Hoc phi nganh cntt bao nhieu?").2.2.2.2.2 (by decide)⟩

/-- Claim C7: every prompt the builder produces — built with any document list
or without context — contains the full anti-hallucination system prompt
verbatim together with the query text. -/
theorem prompt_contains_system_and_query (query : String)
    (documents : List RetrievedDoc) :
    OccursIn SYSTEM_PROMPT (build query documents)
    ∧ OccursIn query (build query documents) := by
  cases documents with
  | nil =>
    have hb : build query []
        = SYSTEM_PROMPT ++ "\n\nCÂU HỎI: " ++ query ++ "\n\nTRẢ LỜI: " ++ APOLOGY_NO_INFO :=
      rfl
    rw [hb]
    constructor
    · exact occursIn_of_append_left _ _ _ (occursIn_of_append_left _ _ _
        (occursIn_of_append_left _ _ _ (occursIn_of_append_left _ _ _
          (occursIn_refl SYSTEM_PROMPT))))
    · exact occursIn_of_append_left _ _ _ (occursIn_of_append_left _ _ _
        (occursIn_of_append_right _ _ _ (occursIn_refl query)))
  | cons d ds =>
    have hb : build query (d :: ds)
        = SYSTEM_PROMPT ++ "\n\n" ++ CONTEXT_HEADER ++ "\n"
          ++ String.intercalate "\n\n"
              (((d :: ds).enum).map fun p => contextPart (p.1 + 1) p.2)
          ++ "\n\nCÂU HỎI NGƯỜI DÙNG:\n" ++ query ++ "\n\nTRẢ LỜI:" :=
      rfl
    rw [hb]
    constructor
    · exact occursIn_of_append_left _ _ _ (occursIn_of_append_left _ _ _
        (occursIn_of_append_left _ _ _ (occursIn_of_append_left _ _ _
          (occursIn_of_append_left _ _ _ (occursIn_of_append_left _ _ _
            (occursIn_of_append_left _ _ _ (occursIn_refl SYSTEM_PROMPT)))))))
    · exact occursIn_of_append_left _ _ _ (occursIn_of_append_right _ _ _
        (occursIn_refl query))

end FptChatbot
